import Mathlib

/-!
Verification development for the GNN-s repository.

The repository is a thin modelling layer over a tensor framework: three
scripts (`Train/GGNN_Train.py`, `Conv_layer/ADGN_Message.py`,
`GNN_Basics/GNN.py`) defining message-passing layers, training loops and
evaluation loops.  We embed the repository-authored computations shallowly:

* tensors of node features are lists of rows over `ℚ` (or Mathlib matrices
  over `ℝ` where the claim is about exact real arithmetic),
* framework primitives that the repository merely calls (the GRU cell, the
  learned linear layers, dropout, log-softmax) are explicit function
  parameters,
* the authored pieces — shape guards, zero padding, the unrolled gated
  recurrence, the antisymmetric weight construction, the residual update,
  masked-accuracy evaluation, CLI defaults, the telemetry JSON
  load/update/store cycle and the authored file writes — are translated
  directly from the source.
-/

namespace Tensors

/-- Torch `t.max(1)[1]` / `t.argmax(dim=1)` for one row: the index of the first
maximal entry (0 on an empty row). -/
def argmaxIdx (l : List ℚ) : ℕ :=
  (l.enum.foldl (fun best p => if best.2 < p.2 then p else best) (0, l.headD 0)).1

/-- Torch `mask.sum().item()` for a boolean mask. -/
def maskCount (mask : List Bool) : ℕ := (mask.filter id).length

/-- Boolean-mask indexing `t[mask]`: keep the entries at positions where the
mask is true. -/
def maskSelect {α : Type} (mask : List Bool) (xs : List α) : List α :=
  ((mask.zip xs).filter (fun p => p.1)).map (fun p => p.2)

/-- Torch `a.eq(b).sum().item()`: the number of positions where two label vectors
agree. -/
def countEq (a b : List ℕ) : ℕ := ((a.zip b).filter (fun p => p.1 == p.2)).length

end Tensors

namespace GGNN

/-- Feature dimension `x.size(-1)` of a rectangular tensor given as a list of
node rows (`GGNN_Train.py`). -/
def size1 (x : List (List ℚ)) : ℕ := (x.headD []).length

/-- Torch `x.new_zeros(r, c)`: an `r × c` tensor of zeros. -/
def zeros (r c : ℕ) : List (List ℚ) := List.replicate r (List.replicate c 0)

/-- Embeds `torch.cat([x, zero], dim=1)`: rowwise concatenation of two tensors with
the same number of rows. -/
def catCols (x y : List (List ℚ)) : List (List ℚ) := List.zipWith (· ++ ·) x y

/-- The padding step of `GatedGraphConv.forward` (`GGNN_Train.py` lines
69-72): when `x.size(-1) < out_channels`, pad `x` on the right with
`out_channels - x.size(-1)` zero columns, otherwise leave `x` unchanged. -/
def padToOut (out : ℕ) (x : List (List ℚ)) : List (List ℚ) :=
  if size1 x < out then catCols x (zeros x.length (out - size1 x)) else x

/-- One row of `torch.matmul(x, W)` against a square weight matrix `W` with
`cols` columns. -/
def matmulRow (r : List ℚ) (W : ℕ → ℕ → ℚ) (cols : ℕ) : List ℚ :=
  (List.range cols).map fun j => ((List.range r.length).map fun k => r.getD k 0 * W k j).sum

/-- Embeds `torch.matmul(x, W)` for a tensor of node rows. -/
def matmul (x : List (List ℚ)) (W : ℕ → ℕ → ℚ) (cols : ℕ) : List (List ℚ) :=
  x.map (fun r => matmulRow r W cols)

/-- Elementwise sum of two rows. -/
def addVec (a b : List ℚ) : List ℚ := List.zipWith (· + ·) a b

/-- Sum of a list of width-`w` rows, starting from the zero row. -/
def sumVecs (w : ℕ) (vs : List (List ℚ)) : List ℚ := vs.foldl addVec (List.replicate w 0)

/-- Embeds `self.propagate(edge_index, x=m, edge_weight=edge_weight, size=None)` for
a `MessagePassing` module with `aggr="add"` and the default message `x_j`
(this `GatedGraphConv` overrides no `message`, so `edge_weight` is unused):
node `i` receives the sum of `m[s]` over the edges `(s, t)` with `t = i`. -/
def propagateAdd (w : ℕ) (edges : List (ℕ × ℕ)) (m : List (List ℚ)) : List (List ℚ) :=
  (List.range m.length).map fun i =>
    sumVecs w ((edges.filter (fun e => e.2 == i)).map fun e => m.getD e.1 (List.replicate w 0))

/-- One iteration of the unrolled recurrence (`GGNN_Train.py` lines 74-79):
`m = torch.matmul(x, self.weight[i])`, then `m = self.propagate(...)`, then
`x = self.rnn(m, x)`.  The GRU cell is a framework primitive; it is the
parameter `rnn`, applied batchwise, i.e. row by row. -/
def gatedStep (out : ℕ) (weight : ℕ → ℕ → ℕ → ℚ) (edges : List (ℕ × ℕ))
    (rnn : List ℚ → List ℚ → List ℚ) (i : ℕ) (x : List (List ℚ)) : List (List ℚ) :=
  List.zipWith rnn (propagateAdd out edges (matmul x (weight i) out)) x

/-- The state after `T` unrolled iterations, where iteration `i + 1` applies
`gatedStep` with the weight slice `weight[i]`. -/
def gatedIter (out : ℕ) (weight : ℕ → ℕ → ℕ → ℚ) (edges : List (ℕ × ℕ))
    (rnn : List ℚ → List ℚ → List ℚ) : ℕ → List (List ℚ) → List (List ℚ)
  | 0, x => x
  | T + 1, x => gatedStep out weight edges rnn T (gatedIter out weight edges rnn T x)

/-- Embeds `GatedGraphConv.forward` (`GGNN_Train.py` lines 58-81): guard on
`x.size(-1) > self.out_channels`, zero padding, then the recurrence unrolled
`num_layers` times by the `for i in range(self.num_layers)` loop. -/
def GatedGraphConv.forward (out numLayers : ℕ) (weight : ℕ → ℕ → ℕ → ℚ)
    (edges : List (ℕ × ℕ)) (rnn : List ℚ → List ℚ → List ℚ)
    (x : List (List ℚ)) : Except String (List (List ℚ)) :=
  if size1 x > out then
    Except.error ("The number of input channels is not allowed to " ++
      "be larger than the number of output channels")
  else
    Except.ok ((List.range numLayers).foldl
      (fun s i => gatedStep out weight edges rnn i s) (padToOut out x))

/-- The per-split evaluation of `GGNN_Train.py` lines 258-264:
`pred = logits[mask].max(1)[1]` and
`acc = pred.eq(data.y[mask]).sum().item() / mask.sum().item()`. -/
def evalAcc (logits : List (List ℚ)) (y : List ℕ) (mask : List Bool) : ℚ :=
  ((Tensors.countEq ((Tensors.maskSelect mask logits).map Tensors.argmaxIdx)
      (Tensors.maskSelect mask y) : ℕ) : ℚ) / ((Tensors.maskCount mask : ℕ) : ℚ)

end GGNN

namespace CLI

/-- Embeds `parser.add_argument("--epoch", type=int, help="Epoch Amount", default=100)`
(`GGNN_Train.py` line 334): the parsed integer when the flag is given, 100
otherwise. -/
def parseEpoch (provided : Option Int) : Int := provided.getD 100

/-- Embeds `parser.add_argument("--conv", type=int, help="Conv Amount", default=3)`
(`GGNN_Train.py` line 335). -/
def parseConv (provided : Option Int) : Int := provided.getD 3

/-- Python `range(a, b)` over integers. -/
def pythonRange (a b : Int) : List Int :=
  (List.range (b - a).toNat).map fun k : ℕ => a + (k : Int)

/-- The epoch loop header `for epoch in range(1, epochs + 1)` of `train`
(`GGNN_Train.py` line 222): the list of epoch indices the loop body runs on. -/
def trainEpochList (epochs : Int) : List Int := pythonRange 1 (epochs + 1)

/-- The wiring of the `GGNN` constructor relevant to the CLI claim
(`GGNN_Train.py` line 142):
`self.conv = GatedGraphConv(out_channels=out_channels, num_layers=num_conv)`. -/
structure GGNNArch where
  convOutChannels : ℕ
  convNumLayers : Int

/-- Embeds `GGNN.__init__`: `out_channels` defaults to `in_channels` when `None`,
and the gated convolution is built with `num_layers = num_conv`. -/
def mkGGNN (inChannels : ℕ) (outChannels : Option ℕ) (numConv : Int) : GGNNArch :=
  { convOutChannels := outChannels.getD inChannels, convNumLayers := numConv }

/-- In `train`, the script builds
`GGNN(in_channels=dataset.x.shape[-1], out_channels=32, num_conv=num_conv)`
(`GGNN_Train.py` lines 175-177). -/
def trainModelArch (datasetInChannels : ℕ) (numConv : Int) : GGNNArch :=
  mkGGNN datasetInChannels (some 32) numConv

end CLI

namespace Telemetry

/-- The `requirements` dictionary: model name ↦ recorded resource-usage
samples. -/
abbrev ReqDict := List (String × List ℚ)

/-- Python dictionary lookup on the embedded association list. -/
def lookupKey (k : String) : ReqDict → Option (List ℚ)
  | [] => none
  | (k', v) :: rest => if k' = k then some v else lookupKey k rest

/-- Modelled from the spec: `computeStats` is imported from the `compstats`
module, which is not present under `src/`.  The spec says "Process-resource
telemetry is appended to a JSON file keyed by model name, used to
resume/accumulate CPU/GPU utilization statistics across runs", so one
`computeStats` call is modelled as appending one resource sample under the
model's key (creating the key when absent) and leaving every other key
unchanged. -/
def computeStats (model : String) (sample : ℚ) : ReqDict → ReqDict
  | [] => [(model, [sample])]
  | (k, vs) :: rest =>
      if k = model then (k, vs ++ [sample]) :: rest
      else (k, vs) :: computeStats model sample rest

/-- The constant `file_path = 'Train/comp_per_model/GGNN.py_requirements.json'`
(`GGNN_Train.py` line 190). -/
def requirementsFilePath : String := "Train/comp_per_model/GGNN.py_requirements.json"

/-- The telemetry life cycle of `train` (`GGNN_Train.py` lines 186-208 and
292-294), as a transformer of the file system (a map from paths to parsed
JSON contents): start from `requirements = {}`, load the dictionary from
`requirementsFilePath` when that file exists, apply the `computeStats` calls
made during the run, and `json.dump` the result back to the same path. -/
def trainRequirements (fs : String → Option ReqDict) (model : String)
    (samples : List ℚ) : String → Option ReqDict :=
  let req0 := (fs requirementsFilePath).getD []
  let reqF := samples.foldl (fun r s => computeStats model s r) req0
  fun p => if p = requirementsFilePath then some reqF else fs p

end Telemetry

namespace Effects

/-- The tensorboard event-log directory chosen at `GNN_Basics/GNN.py` line
262: `SummaryWriter("GNN_Basics/log/" + <timestamp>)`. -/
def tensorboardLogDir (timestamp : String) : String := "GNN_Basics/log/" ++ timestamp

/-- The paths opened for writing by code authored in `Train/GGNN_Train.py`:
only the telemetry JSON dump (`with open(file_path, "w")` at lines 292-294). -/
def ggnnTrainWritePaths : List String := [Telemetry.requirementsFilePath]

/-- The paths handed to a writing sink by code authored in
`GNN_Basics/GNN.py`: only the `SummaryWriter` event-log directory (line 262,
written to by `add_scalar` during training). -/
def gnnBasicsWritePaths (timestamp : String) : List String := [tensorboardLogDir timestamp]

/-- The script `Conv_layer/ADGN_Message.py` contains no file-writing operation. -/
def adgnMessageWritePaths : List String := []

/-- Every path written by the repository's own code. -/
def repoWritePaths (timestamp : String) : List String :=
  ggnnTrainWritePaths ++ gnnBasicsWritePaths timestamp ++ adgnMessageWritePaths

end Effects

namespace GNNB

/-- One `Planetoid`-style data batch as consumed by `test` in
`GNN_Basics/GNN.py` for the node task: labels and the split masks. -/
structure NodeData where
  y : List ℕ
  valMask : List Bool
  testMask : List Bool

/-- Embeds `test(loader, model, is_validation)` of `GNN_Basics/GNN.py` (lines
201-230) for the node task.  The trained model is the parameter `modelF`
giving the per-node class scores (`pred` before `argmax`).  Per batch:
`pred = pred.argmax(dim=1)`, the mask is `data.val_mask` when
`is_validation` else `data.test_mask`, and `correct` accumulates
`pred[mask].eq(label[mask]).sum().item()`.  The denominator (lines 227-229)
always accumulates `torch.sum(data.test_mask).item()`. -/
def test (modelF : NodeData → List (List ℚ)) (loader : List NodeData)
    (isValidation : Bool) : ℚ :=
  let correct := (loader.map fun d =>
    let predAll := (modelF d).map Tensors.argmaxIdx
    let mask := if isValidation then d.valMask else d.testMask
    Tensors.countEq (Tensors.maskSelect mask predAll) (Tensors.maskSelect mask d.y)).sum
  let total := (loader.map fun d => Tensors.maskCount d.testMask).sum
  ((correct : ℕ) : ℚ) / ((total : ℕ) : ℚ)

/-- The claim's notion of masked accuracy, written from the spec's words (to
be compared with the code's evaluators): the number of nodes in the split's
boolean mask whose argmax prediction equals the true label, divided by the
number of nodes in that same mask. -/
def specMaskedAcc (logits : List (List ℚ)) (y : List ℕ) (mask : List Bool) : ℚ :=
  ((((mask.zip (logits.zip y)).filter
      (fun p => p.1 && (Tensors.argmaxIdx p.2.1 == p.2.2))).length : ℕ) : ℚ)
    / (((mask.filter id).length : ℕ) : ℚ)

/-- A graph-data batch as consumed by `GCN.forward` in `GNN_Basics/GNN.py`. -/
structure GraphData where
  numNodes : ℕ
  x : List (List ℚ)
  edgeIndex : List (ℕ × ℕ)
  batch : List ℕ

/-- Embeds `data.num_node_features`: the feature dimension of `data.x` (0 when the
feature matrix is absent or empty). -/
def GraphData.numNodeFeatures (d : GraphData) : ℕ := (d.x.headD []).length

/-- Torch `torch.ones(r, c)`. -/
def onesMat (r c : ℕ) : List (List ℚ) := List.replicate r (List.replicate c 1)

/-- Torch `F.relu`, elementwise. -/
def reluMat (x : List (List ℚ)) : List (List ℚ) := x.map fun r => r.map (fun v => max v 0)

/-- The layer stack of `GCN.forward` after the input features are fixed
(`GNN_Basics/GNN.py` lines 95-117): `num_layers` rounds of conv layer (a
framework `GCNConv`/`GINConv`, the parameter `convs`), relu, and dropout
(a framework primitive, the parameter `dropout`); then max pooling (the
parameter `pool`) when `task = "graph"`, the post-message-passing MLP
`postMp` and `logSoftmax`.  Returns `(emb, log_softmax output)` where `emb`
is the output of the last conv layer (`x0` itself when the stack is empty,
where the Python would leave `emb` unbound; `num_layers = conv_layers + 1`
is at least 1 in every constructed model). -/
def GCN.stack (numLayers : ℕ)
    (convs : ℕ → List (List ℚ) → List (ℕ × ℕ) → List (List ℚ))
    (dropout : List (List ℚ) → List (List ℚ))
    (task : String) (pool : List (List ℚ) → List ℕ → List (List ℚ))
    (postMp : List (List ℚ) → List (List ℚ))
    (logSoftmax : List (List ℚ) → List (List ℚ))
    (d : GraphData) (x0 : List (List ℚ)) : List (List ℚ) × List (List ℚ) :=
  let p := (List.range numLayers).foldl
    (fun (p : List (List ℚ) × List (List ℚ)) i =>
      let xc := convs i p.1 d.edgeIndex
      (dropout (reluMat xc), xc)) (x0, x0)
  let x := if task = "graph" then pool p.1 d.batch else p.1
  (p.2, logSoftmax (postMp x))

/-- Embeds `GCN.forward` (`GNN_Basics/GNN.py` lines 84-117): take `data.x`, replace
it by a constant all-ones `(num_nodes, 1)` feature matrix when
`data.num_node_features == 0`, then run the layer stack on the result. -/
def GCN.forward (numLayers : ℕ)
    (convs : ℕ → List (List ℚ) → List (ℕ × ℕ) → List (List ℚ))
    (dropout : List (List ℚ) → List (List ℚ))
    (task : String) (pool : List (List ℚ) → List ℕ → List (List ℚ))
    (postMp : List (List ℚ) → List (List ℚ))
    (logSoftmax : List (List ℚ) → List (List ℚ))
    (d : GraphData) : List (List ℚ) × List (List ℚ) :=
  let x := d.x
  let x := if d.numNodeFeatures = 0 then onesMat d.numNodes 1 else x
  GCN.stack numLayers convs dropout task pool postMp logSoftmax d x

end GNNB

namespace ADGN

/-- The effective weight matrix computed by `ADGNConv.forward`
(`ADGN_Message.py` lines 89-95):
`W = (self.Weights - self.Weights.T) - (self.gamma * self.Identity)` when
`self.antisymmetry`, else `self.Weights` (`self.Identity` is the frozen
`in_channels × in_channels` identity matrix created in the constructor). -/
noncomputable def effectiveWeight {k : ℕ} (Weights : Matrix (Fin k) (Fin k) ℝ)
    (gamma : ℝ) (antisymmetry : Bool) : Matrix (Fin k) (Fin k) ℝ :=
  if antisymmetry then
    (Weights - Weights.transpose) - gamma • (1 : Matrix (Fin k) (Fin k) ℝ)
  else Weights

/-- The learned state of one `ADGNConv` layer (`ADGN_Message.py` lines
49-87).  The `ADGN` module stacks these layers with
`in_channels = out_channels = hidden_dim`, and `forward` itself needs
`in_channels = out_channels` for its shapes to agree, so a single width `k`
is used.  `linW` is the (transposed) weight of the bias-free aggregation
layer `self.linear`, so that applying `self.linear` is `x ↦ x * linW`. -/
structure ADGNConv (k : ℕ) where
  Weights : Matrix (Fin k) (Fin k) ℝ
  bias : Fin k → ℝ
  linW : Matrix (Fin k) (Fin k) ℝ
  gamma : ℝ
  epsilon : ℝ
  antisymmetry : Bool

/-- The matrix `W` as used in `forward`. -/
noncomputable def ADGNConv.W {k : ℕ} (l : ADGNConv k) : Matrix (Fin k) (Fin k) ℝ :=
  effectiveWeight l.Weights l.gamma l.antisymmetry

/-- Embeds `add_self_loops(edge_index, num_nodes=x.size(0))`
(`ADGN_Message.py` line 102): append the loop `(i, i)` for every node. -/
def addSelfLoops (n : ℕ) (edges : List (Fin n × Fin n)) : List (Fin n × Fin n) :=
  edges ++ (List.finRange n).map (fun i => (i, i))

/-- Embeds `pyg_utils.degree(row, aggr_x.size()[0])` (`ADGN_Message.py` line
108): the number of edge sources equal to `i`. -/
def degree (n : ℕ) (edges : List (Fin n × Fin n)) (i : Fin n) : ℕ :=
  (edges.filter (fun e => e.1 == i)).length

/-- Embeds `deg.pow(-0.5)` (`ADGN_Message.py` line 109).  Every degree is at
least 1 because `addSelfLoops` gives each node a loop, so the `0 ** -0.5`
corner of the torch power (which would produce `inf`) cannot arise. -/
noncomputable def degInvSqrt (n : ℕ) (edges : List (Fin n × Fin n)) (i : Fin n) : ℝ :=
  1 / Real.sqrt (degree n edges i)

/-- Embeds `norm = deg_inv_sqrt[row] * deg_inv_sqrt[col]` (`ADGN_Message.py`
line 112), per edge. -/
noncomputable def edgeNorm (n : ℕ) (edges : List (Fin n × Fin n))
    (e : Fin n × Fin n) : ℝ :=
  degInvSqrt n edges e.1 * degInvSqrt n edges e.2

/-- Embeds `self.propagate(edge_index, x=aggr_x, norm=norm)` with the
authored message `message(x_j, norm) = norm.view(-1, 1) * x_j` and
`aggr="add"` (`ADGN_Message.py` lines 115 and 126-129): node `i` sums
`norm e * x[source e]` over the edges `e` targeting `i`. -/
noncomputable def propagateNorm {n k : ℕ} (edges : List (Fin n × Fin n))
    (norm : Fin n × Fin n → ℝ) (x : Matrix (Fin n) (Fin k) ℝ) :
    Matrix (Fin n) (Fin k) ℝ :=
  Matrix.of fun i j =>
    (edges.map (fun e => if e.2 = i then norm e * x e.1 j else 0)).sum

/-- The full neighbourhood aggregation `aggr_x` of `ADGNConv.forward`
(`ADGN_Message.py` lines 97-115): `aggr_x = self.linear(x)`, self loops,
degree normalization, propagation. -/
noncomputable def ADGNConv.aggrOut {n k : ℕ} (l : ADGNConv k)
    (x : Matrix (Fin n) (Fin k) ℝ) (edges : List (Fin n × Fin n)) :
    Matrix (Fin n) (Fin k) ℝ :=
  let aggr1 := x * l.linW
  let edges2 := addSelfLoops n edges
  propagateNorm edges2 (edgeNorm n edges2) aggr1

/-- The row-broadcast bias `self.bias` as an `n × k` matrix. -/
def biasMat (n : ℕ) {k : ℕ} (bias : Fin k → ℝ) : Matrix (Fin n) (Fin k) ℝ :=
  Matrix.of fun _ j => bias j

/-- Embeds `ADGNConv.forward` (`ADGN_Message.py` lines 89-124) with the
activation `act` (the constructor fixes `self.act_func = nn.Tanh()`; the
claims instantiate `act` with the real `tanh`):
`x = x_prev @ W + aggr_x + self.bias`, `x = self.epsilon * act(x)`,
`x = x_prev + x`. -/
noncomputable def ADGNConv.forward {n k : ℕ} (l : ADGNConv k) (act : ℝ → ℝ)
    (x : Matrix (Fin n) (Fin k) ℝ) (edges : List (Fin n × Fin n)) :
    Matrix (Fin n) (Fin k) ℝ :=
  let xprev := x
  let z := xprev * l.W + l.aggrOut x edges + biasMat n l.bias
  xprev + Matrix.of fun i j => l.epsilon * act (z i j)

end ADGN

/-! ## Helper lemmas -/

theorem GGNN.foldl_range_gatedStep (out : ℕ) (weight : ℕ → ℕ → ℕ → ℚ)
    (edges : List (ℕ × ℕ)) (rnn : List ℚ → List ℚ → List ℚ)
    (x : List (List ℚ)) (T : ℕ) :
    (List.range T).foldl (fun s i => gatedStep out weight edges rnn i s) x
      = gatedIter out weight edges rnn T x := by
  induction T with
  | zero => rfl
  | succ n ih =>
      rw [List.range_succ, List.foldl_append, ih]
      rfl

theorem GGNN.forward_ok (out numLayers : ℕ) (weight : ℕ → ℕ → ℕ → ℚ)
    (edges : List (ℕ × ℕ)) (rnn : List ℚ → List ℚ → List ℚ)
    (x : List (List ℚ)) (h : size1 x ≤ out) :
    GatedGraphConv.forward out numLayers weight edges rnn x
      = Except.ok (gatedIter out weight edges rnn numLayers (padToOut out x)) := by
  unfold GatedGraphConv.forward
  rw [if_neg (by omega), foldl_range_gatedStep]

theorem GGNN.zipWith_append_replicate (x : List (List ℚ)) (c : List ℚ) :
    List.zipWith (· ++ ·) x (List.replicate x.length c) = x.map (· ++ c) := by
  induction x with
  | nil => rfl
  | cons r rest ih => simp [List.replicate_succ, ih]

theorem GGNN.mem_zipWith {α β γ : Type} {f : α → β → γ} {as : List α}
    {bs : List β} {c : γ} (h : c ∈ List.zipWith f as bs) : ∃ a b, c = f a b := by
  induction as generalizing bs with
  | nil => simp at h
  | cons a as ih =>
      cases bs with
      | nil => simp at h
      | cons b bs =>
          rw [List.zipWith_cons_cons, List.mem_cons] at h
          rcases h with h | h
          · exact ⟨a, b, h⟩
          · exact ih h

theorem Tensors.maskSelect_map {α β : Type} (f : α → β) (m : List Bool) (xs : List α) :
    Tensors.maskSelect m (xs.map f) = (Tensors.maskSelect m xs).map f := by
  induction m generalizing xs with
  | nil => simp [Tensors.maskSelect]
  | cons b bs ih =>
      cases xs with
      | nil => simp [Tensors.maskSelect]
      | cons x xs' =>
          cases b <;>
            simp [Tensors.maskSelect, List.zip_cons_cons, List.filter_cons] <;>
            simpa [Tensors.maskSelect] using ih xs'

theorem Tensors.countEq_maskSelect_argmax (m : List Bool) (ls : List (List ℚ))
    (ys : List ℕ) (h1 : m.length = ls.length) (h2 : m.length = ys.length) :
    Tensors.countEq ((Tensors.maskSelect m ls).map Tensors.argmaxIdx)
        (Tensors.maskSelect m ys)
      = ((m.zip (ls.zip ys)).filter
          (fun p => p.1 && (Tensors.argmaxIdx p.2.1 == p.2.2))).length := by
  induction m generalizing ls ys with
  | nil => simp [Tensors.maskSelect, Tensors.countEq]
  | cons b bs ih =>
      cases ls with
      | nil => simp at h1
      | cons l ls' =>
          cases ys with
          | nil => simp at h2
          | cons y ys' =>
              simp only [List.length_cons] at h1 h2
              have ih' := ih ls' ys' (by omega) (by omega)
              cases b
              · simpa [Tensors.maskSelect, Tensors.countEq, List.zip_cons_cons,
                  List.filter_cons] using ih'
              · by_cases hc : Tensors.argmaxIdx l = y
                · simpa [Tensors.maskSelect, Tensors.countEq, List.zip_cons_cons,
                    List.filter_cons, hc] using ih'
                · simpa [Tensors.maskSelect, Tensors.countEq, List.zip_cons_cons,
                    List.filter_cons, hc] using ih'

theorem Telemetry.lookupKey_computeStats_ne (model k : String) (s : ℚ)
    (r : Telemetry.ReqDict) (hk : k ≠ model) :
    Telemetry.lookupKey k (Telemetry.computeStats model s r)
      = Telemetry.lookupKey k r := by
  induction r with
  | nil => simp [Telemetry.computeStats, Telemetry.lookupKey, Ne.symm hk]
  | cons p rest ih =>
      obtain ⟨k', vs⟩ := p
      by_cases h : k' = model
      · subst h
        simp [Telemetry.computeStats, Telemetry.lookupKey, Ne.symm hk]
      · simp [Telemetry.computeStats, Telemetry.lookupKey, h, ih]

theorem Telemetry.lookupKey_computeStats_self (model : String) (s : ℚ)
    (r : Telemetry.ReqDict) :
    Telemetry.lookupKey model (Telemetry.computeStats model s r)
      = some ((Telemetry.lookupKey model r).getD [] ++ [s]) := by
  induction r with
  | nil => simp [Telemetry.computeStats, Telemetry.lookupKey]
  | cons p rest ih =>
      obtain ⟨k', vs⟩ := p
      by_cases h : k' = model
      · subst h
        simp [Telemetry.computeStats, Telemetry.lookupKey]
      · simp [Telemetry.computeStats, Telemetry.lookupKey, h, ih]

theorem Telemetry.lookupKey_fold_ne (model k : String) (samples : List ℚ)
    (r : Telemetry.ReqDict) (hk : k ≠ model) :
    Telemetry.lookupKey k
        (samples.foldl (fun d s => Telemetry.computeStats model s d) r)
      = Telemetry.lookupKey k r := by
  induction samples generalizing r with
  | nil => rfl
  | cons s ss ih =>
      rw [List.foldl_cons, ih, Telemetry.lookupKey_computeStats_ne model k s r hk]

theorem Telemetry.lookupKey_fold_self (model : String) (samples : List ℚ)
    (r : Telemetry.ReqDict) (v : List ℚ)
    (hv : Telemetry.lookupKey model r = some v) :
    Telemetry.lookupKey model
        (samples.foldl (fun d s => Telemetry.computeStats model s d) r)
      = some (v ++ samples) := by
  induction samples generalizing r v with
  | nil => simpa using hv
  | cons s ss ih =>
      rw [List.foldl_cons]
      have h1 : Telemetry.lookupKey model (Telemetry.computeStats model s r)
          = some (v ++ [s]) := by
        rw [Telemetry.lookupKey_computeStats_self, hv]
        rfl
      simpa [List.append_assoc] using ih (Telemetry.computeStats model s r) (v ++ [s]) h1

theorem abs_tanh_le_one (t : ℝ) : |Real.tanh t| ≤ 1 := by
  rw [Real.tanh_eq_sinh_div_cosh, abs_div, abs_of_pos (Real.cosh_pos t),
    div_le_one (Real.cosh_pos t), abs_le]
  constructor
  · have h := Real.sinh_lt_cosh (-t)
    rw [Real.sinh_neg, Real.cosh_neg] at h
    linarith
  · exact (Real.sinh_lt_cosh t).le

/-! ## Claims -/

/-- Claim C1: `GatedGraphConv.forward` raises a `ValueError` if and only if the
feature dimension `x.size(-1)` of the input is strictly larger than
`self.out_channels`; on every other input it returns normally.  (This guard
at `GGNN_Train.py` lines 63-67 is the only `raise` statement authored
anywhere in the repository's three source files.) -/
theorem c1_forward_error_iff (out numLayers : ℕ) (weight : ℕ → ℕ → ℕ → ℚ)
    (edges : List (ℕ × ℕ)) (rnn : List ℚ → List ℚ → List ℚ) (x : List (List ℚ)) :
    (∃ msg, GGNN.GatedGraphConv.forward out numLayers weight edges rnn x
        = Except.error msg)
      ↔ out < GGNN.size1 x := by
  unfold GGNN.GatedGraphConv.forward
  by_cases h : GGNN.size1 x > out
  · simp [h]
  · simp [h]

/-- Claim C3: For a `GatedGraphConv` with `num_layers = T` and a valid input
(`x.size(-1) ≤ out_channels`), `forward` returns the state after exactly `T`
iterations of the recurrence, where iteration `i + 1` multiplies the current
state by `weight[i]`, runs one message-passing propagation, and applies one
GRU-cell update `x := rnn(m, x)`. -/
theorem c3_forward_unrolls_T_steps (out T : ℕ) (weight : ℕ → ℕ → ℕ → ℚ)
    (edges : List (ℕ × ℕ)) (rnn : List ℚ → List ℚ → List ℚ)
    (x : List (List ℚ)) (h : GGNN.size1 x ≤ out) :
    GGNN.GatedGraphConv.forward out T weight edges rnn x
      = Except.ok (GGNN.gatedIter out weight edges rnn T (GGNN.padToOut out x))
    ∧ ∀ (i : ℕ) (s : List (List ℚ)),
        GGNN.gatedIter out weight edges rnn (i + 1) s
          = List.zipWith rnn
              (GGNN.propagateAdd out edges
                (GGNN.matmul (GGNN.gatedIter out weight edges rnn i s) (weight i) out))
              (GGNN.gatedIter out weight edges rnn i s) := by
  exact ⟨GGNN.forward_ok out T weight edges rnn x h, fun i s => rfl⟩

/-- Witness for C3 at a concrete layer: `out_channels = 2`, `T = 2`, a
two-node graph with one edge, the GRU cell replaced by vector addition. -/
theorem c3_forward_unrolls_T_steps_witness :
    GGNN.size1 [[(1 : ℚ)], [2]] ≤ 2
    ∧ (GGNN.GatedGraphConv.forward 2 2 (fun _ _ _ => 1) [(0, 1)] GGNN.addVec
          [[(1 : ℚ)], [2]]
        = Except.ok (GGNN.gatedIter 2 (fun _ _ _ => 1) [(0, 1)] GGNN.addVec 2
            (GGNN.padToOut 2 [[(1 : ℚ)], [2]]))
      ∧ ∀ (i : ℕ) (s : List (List ℚ)),
          GGNN.gatedIter 2 (fun _ _ _ => 1) [(0, 1)] GGNN.addVec (i + 1) s
            = List.zipWith GGNN.addVec
                (GGNN.propagateAdd 2 [(0, 1)]
                  (GGNN.matmul (GGNN.gatedIter 2 (fun _ _ _ => 1) [(0, 1)] GGNN.addVec i s)
                    ((fun _ _ _ => (1 : ℚ)) i) 2))
                (GGNN.gatedIter 2 (fun _ _ _ => 1) [(0, 1)] GGNN.addVec i s)) :=
  ⟨by decide,
   c3_forward_unrolls_T_steps 2 2 (fun _ _ _ => 1) [(0, 1)] GGNN.addVec
     [[(1 : ℚ)], [2]] (by decide)⟩

/-- Claim C8: When the input's feature dimension `d = x.size(-1)` is strictly
smaller than `out_channels`, `forward` first right-pads `x` with
`out_channels - d` zero columns, the recurrence operates on width-
`out_channels` states throughout, and the layer returns a tensor with
exactly `out_channels` features per node (given the GRU cell's contract of
producing `out_channels`-wide rows). -/
theorem c8_forward_pads_input (out numLayers : ℕ) (weight : ℕ → ℕ → ℕ → ℚ)
    (edges : List (ℕ × ℕ)) (rnn : List ℚ → List ℚ → List ℚ)
    (x : List (List ℚ))
    (hrect : ∀ r ∈ x, r.length = GGNN.size1 x)
    (hlt : GGNN.size1 x < out)
    (hrnn : ∀ m h, (rnn m h).length = out) :
    GGNN.padToOut out x
        = x.map (fun r => r ++ List.replicate (out - GGNN.size1 x) 0)
    ∧ (∀ r ∈ GGNN.padToOut out x, r.length = out)
    ∧ (∀ T, ∀ r ∈ GGNN.gatedIter out weight edges rnn T (GGNN.padToOut out x),
        r.length = out)
    ∧ GGNN.GatedGraphConv.forward out numLayers weight edges rnn x
        = Except.ok (GGNN.gatedIter out weight edges rnn numLayers
            (GGNN.padToOut out x)) := by
  have hpad : GGNN.padToOut out x
      = x.map (fun r => r ++ List.replicate (out - GGNN.size1 x) 0) := by
    unfold GGNN.padToOut GGNN.catCols GGNN.zeros
    rw [if_pos hlt, GGNN.zipWith_append_replicate]
  have hwidth : ∀ r ∈ GGNN.padToOut out x, r.length = out := by
    intro r hr
    rw [hpad] at hr
    rcases List.mem_map.mp hr with ⟨r', hr', rfl⟩
    have := hrect r' hr'
    simp [this]
    omega
  refine ⟨hpad, hwidth, ?_, GGNN.forward_ok out numLayers weight edges rnn x hlt.le⟩
  intro T
  induction T with
  | zero => exact hwidth
  | succ n ih =>
      intro r hr
      rcases GGNN.mem_zipWith hr with ⟨a, b, rfl⟩
      exact hrnn a b

/-- Witness for C8: a two-node input of width 1 padded to width 2, with a
GRU cell that always produces width-2 rows. -/
theorem c8_forward_pads_input_witness :
    (∀ r ∈ [[(1 : ℚ)], [2]], r.length = GGNN.size1 [[(1 : ℚ)], [2]])
    ∧ GGNN.size1 [[(1 : ℚ)], [2]] < 2
    ∧ (∀ (m h : List ℚ), ((fun (_ _ : List ℚ) => [(0 : ℚ), 0]) m h).length = 2)
    ∧ (GGNN.padToOut 2 [[(1 : ℚ)], [2]]
          = [[(1 : ℚ)], [2]].map
              (fun r => r ++ List.replicate (2 - GGNN.size1 [[(1 : ℚ)], [2]]) 0)
      ∧ (∀ r ∈ GGNN.padToOut 2 [[(1 : ℚ)], [2]], r.length = 2)
      ∧ (∀ T, ∀ r ∈ GGNN.gatedIter 2 (fun _ _ _ => 1) []
            (fun _ _ => [(0 : ℚ), 0]) T (GGNN.padToOut 2 [[(1 : ℚ)], [2]]),
          r.length = 2)
      ∧ GGNN.GatedGraphConv.forward 2 1 (fun _ _ _ => 1) []
            (fun _ _ => [(0 : ℚ), 0]) [[(1 : ℚ)], [2]]
          = Except.ok (GGNN.gatedIter 2 (fun _ _ _ => 1) []
              (fun _ _ => [(0 : ℚ), 0]) 1 (GGNN.padToOut 2 [[(1 : ℚ)], [2]]))) :=
  ⟨by decide, by decide, fun _ _ => rfl,
   c8_forward_pads_input 2 1 (fun _ _ _ => 1) [] (fun _ _ => [(0 : ℚ), 0])
     [[(1 : ℚ)], [2]] (by decide) (by decide) (fun _ _ => rfl)⟩

/-- Claim C5: The CLI accepts `--epoch` (default 100) and `--conv` (default 3)
as integers; the training loop `for epoch in range(1, epochs + 1)` executes
exactly `--epoch` epochs, and the model's gated convolution is built with
exactly `--conv` propagation layers. -/
theorem c5_cli_flags :
    CLI.parseEpoch none = 100
    ∧ CLI.parseConv none = 3
    ∧ (∀ v : Int, CLI.parseEpoch (some v) = v ∧ CLI.parseConv (some v) = v)
    ∧ (∀ e : Int, 0 ≤ e → ((CLI.trainEpochList e).length : Int) = e)
    ∧ (∀ (dIn : ℕ) (c : Int), (CLI.trainModelArch dIn c).convNumLayers = c) := by
  refine ⟨rfl, rfl, fun v => ⟨rfl, rfl⟩, ?_, fun dIn c => rfl⟩
  intro e he
  unfold CLI.trainEpochList CLI.pythonRange
  rw [List.length_map, List.length_range]
  omega

/-- Witness for C5 at the default epoch count: the loop list for
`--epoch 100` has exactly 100 entries. -/
theorem c5_cli_flags_witness :
    (0 : Int) ≤ 100 ∧ ((CLI.trainEpochList 100).length : Int) = 100 :=
  ⟨by norm_num, c5_cli_flags.2.2.2.1 100 (by norm_num)⟩

/-- Claim C7: The only paths written by the repository's own code are the
tensorboard event-log directory and the telemetry requirements JSON file; no
authored operation writes model checkpoints, modifies the dataset on disk,
or creates any other file.  (The write sites are enumerated from the source:
`json.dump` at `GGNN_Train.py` lines 292-294 and the `SummaryWriter` log
directory at `GNN_Basics/GNN.py` line 262; dataset caching is performed
inside the third-party `Planetoid` loader, not by repository code.) -/
theorem c7_write_frame (timestamp : String) (p : String)
    (hp : p ∈ Effects.repoWritePaths timestamp) :
    p = Telemetry.requirementsFilePath
    ∨ ∃ s, p = "GNN_Basics/log/" ++ s := by
  rcases List.mem_append.mp hp with h | h
  · rcases List.mem_append.mp h with h | h
    · left
      simpa [Effects.ggnnTrainWritePaths] using h
    · right
      exact ⟨timestamp, by simpa [Effects.gnnBasicsWritePaths,
        Effects.tensorboardLogDir] using h⟩
  · simp [Effects.adgnMessageWritePaths] at h

/-- Witness for C7: the telemetry JSON path is among the written paths for a
concrete run. -/
theorem c7_write_frame_witness :
    Telemetry.requirementsFilePath ∈ Effects.repoWritePaths "20240101-000000"
    ∧ (Telemetry.requirementsFilePath = Telemetry.requirementsFilePath
      ∨ ∃ s, Telemetry.requirementsFilePath = "GNN_Basics/log/" ++ s) :=
  ⟨by simp [Effects.repoWritePaths, Effects.ggnnTrainWritePaths],
   c7_write_frame "20240101-000000" Telemetry.requirementsFilePath
     (by simp [Effects.repoWritePaths, Effects.ggnnTrainWritePaths])⟩

/-- Claim C2: with `antisymmetry=True` the effective weight used by
`ADGNConv.forward` is `(Weights - Weights.T) - gamma * I`, so that
`W + gamma * I` is antisymmetric and `W + W.T = -2 * gamma * I`; with
`antisymmetry=False` the weight is `Weights` unchanged. -/
theorem c2_antisymmetric_weights {k : ℕ} (Weights linW : Matrix (Fin k) (Fin k) ℝ)
    (bias : Fin k → ℝ) (gamma epsilon : ℝ) :
    ADGN.ADGNConv.W ⟨Weights, bias, linW, gamma, epsilon, true⟩
        = (Weights - Weights.transpose) - gamma • (1 : Matrix (Fin k) (Fin k) ℝ)
    ∧ (ADGN.ADGNConv.W ⟨Weights, bias, linW, gamma, epsilon, true⟩
          + gamma • (1 : Matrix (Fin k) (Fin k) ℝ)).transpose
        = -(ADGN.ADGNConv.W ⟨Weights, bias, linW, gamma, epsilon, true⟩
          + gamma • (1 : Matrix (Fin k) (Fin k) ℝ))
    ∧ ADGN.ADGNConv.W ⟨Weights, bias, linW, gamma, epsilon, true⟩
          + (ADGN.ADGNConv.W ⟨Weights, bias, linW, gamma, epsilon, true⟩).transpose
        = (-(2 * gamma)) • (1 : Matrix (Fin k) (Fin k) ℝ)
    ∧ ADGN.ADGNConv.W ⟨Weights, bias, linW, gamma, epsilon, false⟩ = Weights := by
  refine ⟨rfl, ?_, ?_, rfl⟩
  · ext i j
    by_cases h : i = j
    · subst h
      simp [ADGN.ADGNConv.W, ADGN.effectiveWeight, Matrix.transpose_apply,
        Matrix.one_apply]
    · simp [ADGN.ADGNConv.W, ADGN.effectiveWeight, Matrix.transpose_apply,
        Matrix.one_apply, h, Ne.symm h]
  · ext i j
    by_cases h : i = j
    · subst h
      simp [ADGN.ADGNConv.W, ADGN.effectiveWeight, Matrix.transpose_apply,
        Matrix.one_apply]
      ring
    · simp [ADGN.ADGNConv.W, ADGN.effectiveWeight, Matrix.transpose_apply,
        Matrix.one_apply, h, Ne.symm h]

/-- Claim C9: every `ADGNConv` forward step is the bounded residual update
`x + epsilon * tanh(x @ W + aggr_x + bias)`, and (in exact real arithmetic,
for a nonnegative `epsilon`) every entry of the output differs from the
corresponding input entry by at most `epsilon`. -/
theorem c9_bounded_residual {n k : ℕ} (l : ADGN.ADGNConv k)
    (x : Matrix (Fin n) (Fin k) ℝ) (edges : List (Fin n × Fin n)) :
    ADGN.ADGNConv.forward l Real.tanh x edges
        = x + Matrix.of (fun i j => l.epsilon * Real.tanh
            ((x * l.W + l.aggrOut x edges + ADGN.biasMat n l.bias) i j))
    ∧ (0 ≤ l.epsilon → ∀ i j,
        |ADGN.ADGNConv.forward l Real.tanh x edges i j - x i j| ≤ l.epsilon) := by
  constructor
  · rfl
  · intro he i j
    have hd : ADGN.ADGNConv.forward l Real.tanh x edges i j - x i j
        = l.epsilon * Real.tanh
            ((x * l.W + l.aggrOut x edges + ADGN.biasMat n l.bias) i j) := by
      simp [ADGN.ADGNConv.forward, Matrix.add_apply]
    rw [hd, abs_mul, abs_of_nonneg he]
    exact mul_le_of_le_one_right he (abs_tanh_le_one _)

/-- Witness for C9 at a concrete layer: one node, one channel, zero weights
and `epsilon = 1/10`; the output entry stays within `1/10` of the input. -/
theorem c9_bounded_residual_witness :
    (0 : ℝ) ≤ 1 / 10
    ∧ ∀ i j, |ADGN.ADGNConv.forward
        (⟨0, 0, 0, 1 / 10, 1 / 10, true⟩ : ADGN.ADGNConv 1) Real.tanh
        (0 : Matrix (Fin 1) (Fin 1) ℝ) [] i j - (0 : Matrix (Fin 1) (Fin 1) ℝ) i j|
      ≤ 1 / 10 :=
  ⟨by norm_num,
   fun i j => (c9_bounded_residual (⟨0, 0, 0, 1 / 10, 1 / 10, true⟩ : ADGN.ADGNConv 1)
     (0 : Matrix (Fin 1) (Fin 1) ℝ) []).2 (by norm_num) i j⟩

/-- Counterexample to claim C4 as stated: `test(loader, model,
is_validation=True)` in `GNN_Basics/GNN.py` divides the number of correct
predictions on the validation mask by the total size of the *test* mask
(lines 227-229), so on a batch whose validation mask (1 node, predicted
correctly) is smaller than its test mask (2 nodes) it returns 1/2, not the
validation accuracy 1. -/
theorem c4_counterexample :
    GNNB.test (fun _ => [[1, 0], [0, 1]]) [⟨[0, 0], [true, false], [true, true]⟩] true
      ≠ GNNB.specMaskedAcc [[1, 0], [0, 1]] [0, 0] [true, false] := by
  have h1 : GNNB.test (fun _ => [[1, 0], [0, 1]])
      [⟨[0, 0], [true, false], [true, true]⟩] true = ((1 : ℕ) : ℚ) / ((2 : ℕ) : ℚ) := rfl
  have h2 : GNNB.specMaskedAcc [[1, 0], [0, 1]] [0, 0] [true, false]
      = ((1 : ℕ) : ℚ) / ((1 : ℕ) : ℚ) := rfl
  rw [h1, h2]
  norm_num

/-- Claim C4, amended: the GGNN evaluation (`GGNN_Train.py` lines 258-264)
computes masked accuracy exactly as claimed — correct predictions in the
mask over the size of that same mask — and `test` in `GNN_Basics/GNN.py`
does so for the test split (`is_validation=False`); but with
`is_validation=True` its numerator counts correct predictions on the
validation mask while its denominator is always the total test-mask size,
so it is not the validation accuracy. -/
theorem c4_masked_accuracy_amended :
    (∀ (logits : List (List ℚ)) (y : List ℕ) (mask : List Bool),
        mask.length = logits.length → mask.length = y.length →
        GGNN.evalAcc logits y mask = GNNB.specMaskedAcc logits y mask)
    ∧ (∀ (modelF : GNNB.NodeData → List (List ℚ)) (d : GNNB.NodeData),
        d.testMask.length = (modelF d).length → d.testMask.length = d.y.length →
        GNNB.test modelF [d] false = GNNB.specMaskedAcc (modelF d) d.y d.testMask)
    ∧ (∀ (modelF : GNNB.NodeData → List (List ℚ)) (d : GNNB.NodeData),
        GNNB.test modelF [d] true
          = ((Tensors.countEq
              (Tensors.maskSelect d.valMask ((modelF d).map Tensors.argmaxIdx))
              (Tensors.maskSelect d.valMask d.y) : ℕ) : ℚ)
            / ((Tensors.maskCount d.testMask : ℕ) : ℚ)) := by
  refine ⟨?_, ?_, ?_⟩
  · intro logits y mask h1 h2
    unfold GGNN.evalAcc GNNB.specMaskedAcc Tensors.maskCount
    rw [Tensors.countEq_maskSelect_argmax mask logits y h1 h2]
  · intro modelF d h1 h2
    unfold GNNB.test GNNB.specMaskedAcc Tensors.maskCount
    simp only [List.map_cons, List.map_nil, List.sum_cons, List.sum_nil,
      Bool.false_eq_true, if_false, add_zero]
    rw [Tensors.maskSelect_map, Tensors.countEq_maskSelect_argmax d.testMask
      (modelF d) d.y h1 h2]
  · intro modelF d
    unfold GNNB.test
    simp

/-- Witness for the amended C4 on a concrete two-node batch where both
evaluators agree on the test split. -/
theorem c4_masked_accuracy_amended_witness :
    ([true, true] : List Bool).length = ([[1, 0], [0, 1]] : List (List ℚ)).length
    ∧ ([true, true] : List Bool).length = ([0, 1] : List ℕ).length
    ∧ GGNN.evalAcc [[1, 0], [0, 1]] [0, 1] [true, true]
        = GNNB.specMaskedAcc [[1, 0], [0, 1]] [0, 1] [true, true] :=
  ⟨rfl, rfl, c4_masked_accuracy_amended.1 [[1, 0], [0, 1]] [0, 1] [true, true] rfl rfl⟩

/-- Claim C6: `train` starts from the contents of
`Train/comp_per_model/GGNN.py_requirements.json` when that file exists (an
empty dictionary otherwise), applies the run's `computeStats` updates, and
writes the result back to the same path, so the statistics of a previous
run are preserved (other keys unchanged, the model's own sample list
extended) while every other path is untouched. -/
theorem c6_telemetry_accumulates (fs : String → Option Telemetry.ReqDict)
    (model : String) (samples : List ℚ) :
    Telemetry.trainRequirements fs model samples Telemetry.requirementsFilePath
        = some (samples.foldl (fun r s => Telemetry.computeStats model s r)
            ((fs Telemetry.requirementsFilePath).getD []))
    ∧ (fs Telemetry.requirementsFilePath = none →
        Telemetry.trainRequirements fs model samples Telemetry.requirementsFilePath
          = some (samples.foldl (fun r s => Telemetry.computeStats model s r) []))
    ∧ (∀ k v, k ≠ model →
        Telemetry.lookupKey k ((fs Telemetry.requirementsFilePath).getD []) = some v →
        Telemetry.lookupKey k
            ((Telemetry.trainRequirements fs model samples
              Telemetry.requirementsFilePath).getD [])
          = some v)
    ∧ (∀ v,
        Telemetry.lookupKey model ((fs Telemetry.requirementsFilePath).getD [])
          = some v →
        Telemetry.lookupKey model
            ((Telemetry.trainRequirements fs model samples
              Telemetry.requirementsFilePath).getD [])
          = some (v ++ samples))
    ∧ (∀ p, p ≠ Telemetry.requirementsFilePath →
        Telemetry.trainRequirements fs model samples p = fs p) := by
  have hmain : Telemetry.trainRequirements fs model samples
      Telemetry.requirementsFilePath
        = some (samples.foldl (fun r s => Telemetry.computeStats model s r)
            ((fs Telemetry.requirementsFilePath).getD [])) := by
    simp [Telemetry.trainRequirements]
  refine ⟨hmain, ?_, ?_, ?_, ?_⟩
  · intro h
    rw [hmain, h]
    rfl
  · intro k v hk hv
    rw [hmain]
    simpa [Telemetry.lookupKey_fold_ne model k samples _ hk] using hv
  · intro v hv
    rw [hmain]
    simpa using Telemetry.lookupKey_fold_self model samples _ v hv
  · intro p hp
    simp [Telemetry.trainRequirements, hp]

/-- Witness for C6: a file system already holding samples for two models;
after a run adding two samples for `GGNN.py`, the other model's statistics
are preserved verbatim. -/
theorem c6_telemetry_accumulates_witness :
    ("other" : String) ≠ "GGNN.py"
    ∧ Telemetry.lookupKey "other"
        (((fun p => if p = Telemetry.requirementsFilePath
            then some [("GGNN.py", [(1 : ℚ)]), ("other", [2])] else none)
          Telemetry.requirementsFilePath).getD []) = some [2]
    ∧ Telemetry.lookupKey "other"
        ((Telemetry.trainRequirements
            (fun p => if p = Telemetry.requirementsFilePath
              then some [("GGNN.py", [(1 : ℚ)]), ("other", [2])] else none)
            "GGNN.py" [3, 4] Telemetry.requirementsFilePath).getD [])
      = some [2] :=
  ⟨by decide,
   by simp [Telemetry.lookupKey],
   (c6_telemetry_accumulates
      (fun p => if p = Telemetry.requirementsFilePath
        then some [("GGNN.py", [(1 : ℚ)]), ("other", [2])] else none)
      "GGNN.py" [3, 4]).2.2.1 "other" [2] (by decide)
      (by simp [Telemetry.lookupKey])⟩

/-- Claim C10: when the input graph has zero node features, `GCN.forward`
substitutes a constant all-ones feature matrix of shape `(num_nodes, 1)` for
`data.x` and proceeds with the normal layer stack; with at least one node
feature, `data.x` is used unchanged. -/
theorem c10_gcn_ones_substitution (numLayers : ℕ)
    (convs : ℕ → List (List ℚ) → List (ℕ × ℕ) → List (List ℚ))
    (dropout : List (List ℚ) → List (List ℚ))
    (task : String) (pool : List (List ℚ) → List ℕ → List (List ℚ))
    (postMp : List (List ℚ) → List (List ℚ))
    (logSoftmax : List (List ℚ) → List (List ℚ))
    (d : GNNB.GraphData) :
    (d.numNodeFeatures = 0 →
      GNNB.GCN.forward numLayers convs dropout task pool postMp logSoftmax d
        = GNNB.GCN.stack numLayers convs dropout task pool postMp logSoftmax d
            (GNNB.onesMat d.numNodes 1)
      ∧ (GNNB.onesMat d.numNodes 1).length = d.numNodes
      ∧ ∀ r ∈ GNNB.onesMat d.numNodes 1, r = [1])
    ∧ (d.numNodeFeatures ≠ 0 →
      GNNB.GCN.forward numLayers convs dropout task pool postMp logSoftmax d
        = GNNB.GCN.stack numLayers convs dropout task pool postMp logSoftmax d d.x) := by
  constructor
  · intro h
    refine ⟨?_, by simp [GNNB.onesMat], ?_⟩
    · simp [GNNB.GCN.forward, h]
    · intro r hr
      have := List.eq_of_mem_replicate hr
      simpa using this
  · intro h
    simp [GNNB.GCN.forward, h]

/-- Witness for C10: a featureless two-node graph; `forward` runs the stack
on the all-ones `(2, 1)` matrix. -/
theorem c10_gcn_ones_substitution_witness :
    GNNB.GraphData.numNodeFeatures ⟨2, [], [], []⟩ = 0
    ∧ (GNNB.GCN.forward 1 (fun _ x _ => x) id "node" (fun x _ => x) id id
          ⟨2, [], [], []⟩
        = GNNB.GCN.stack 1 (fun _ x _ => x) id "node" (fun x _ => x) id id
            ⟨2, [], [], []⟩ (GNNB.onesMat 2 1)
      ∧ (GNNB.onesMat 2 1).length = 2
      ∧ ∀ r ∈ GNNB.onesMat 2 1, r = [1]) :=
  ⟨rfl,
   (c10_gcn_ones_substitution 1 (fun _ x _ => x) id "node" (fun x _ => x) id id
     ⟨2, [], [], []⟩).1 rfl⟩
